import Mathlib

/-!
Verification of the smart-scribe daemon control core.

The definitions below are a shallow embedding of the TypeScript sources:
the daemon session state machine (src/domain/daemon, `DaemonSession`),
the daemon transcription use case (`DaemonTranscriptionUseCase` in the
daemon-transcription use case module), the daemon application orchestrator
(`DaemonApp`), and the single-instance PID-file guard (`PidFile`).
Mutable objects are modelled by explicit state passing; `Promise`-based
code is modelled by splitting functions at their suspension points where
the interleaving matters, and by its overall input/output behaviour where
it does not.  Port calls (recorder, transcriber, clipboard, keystroke)
return `Result` values that are supplied as explicit oracle arguments.
-/

namespace SmartScribe

/-- Result type mirroring the shared Result of the repository: a value is
either `ok value` or `err error`. -/
inductive Result (α : Type) (ε : Type) where
| ok (value : α)
| err (error : ε)
deriving Repr, DecidableEq

/-- The `ok` field of a Result: true exactly on `ok` values. -/
def Result.isOk {α ε : Type} : Result α ε → Bool
| .ok _ => true
| .err _ => false

/-- DaemonState value object: "idle" | "recording" | "processing". -/
inductive DaemonState where
| idle
| recording
| processing
deriving Repr, DecidableEq

/-- The string name of a daemon state (the TypeScript value itself). -/
def DaemonState.name : DaemonState → String
| .idle => "idle"
| .recording => "recording"
| .processing => "processing"

/-- InvalidStateTransitionError from daemon.errors: carries the current
state and the attempted action. -/
structure InvalidStateTransitionError where
  currentState : DaemonState
  attemptedAction : String
deriving Repr, DecidableEq

/-- The message of an InvalidStateTransitionError, as built in its
constructor. -/
def InvalidStateTransitionError.message (e : InvalidStateTransitionError) : String :=
  "Cannot " ++ e.attemptedAction ++ " while in " ++ e.currentState.name ++ " state"

/-- DaemonSession entity: its only mutable field is the private state
(initialised to idle). -/
structure DaemonSession where
  state : DaemonState
deriving Repr, DecidableEq

/-- A fresh DaemonSession as built by the constructor. -/
def DaemonSession.init : DaemonSession := ⟨DaemonState.idle⟩

/-- Getter isIdle of DaemonSession. -/
def DaemonSession.isIdle (s : DaemonSession) : Bool :=
  s.state == DaemonState.idle

/-- Getter isRecording of DaemonSession. -/
def DaemonSession.isRecording (s : DaemonSession) : Bool :=
  s.state == DaemonState.recording

/-- Getter isProcessing of DaemonSession. -/
def DaemonSession.isProcessing (s : DaemonSession) : Bool :=
  s.state == DaemonState.processing

/-- startRecording: ok only from idle, then the state becomes recording;
otherwise an InvalidStateTransitionError and the state is unchanged. -/
def DaemonSession.startRecording (s : DaemonSession) :
    Result Unit InvalidStateTransitionError × DaemonSession :=
  if s.state ≠ DaemonState.idle then
    (Result.err ⟨s.state, "start recording"⟩, s)
  else
    (Result.ok (), ⟨DaemonState.recording⟩)

/-- stopRecording: ok only from recording, then the state becomes
processing; otherwise an InvalidStateTransitionError and the state is
unchanged. -/
def DaemonSession.stopRecording (s : DaemonSession) :
    Result Unit InvalidStateTransitionError × DaemonSession :=
  if s.state ≠ DaemonState.recording then
    (Result.err ⟨s.state, "stop recording"⟩, s)
  else
    (Result.ok (), ⟨DaemonState.processing⟩)

/-- cancelRecording: ok only from recording, then the state becomes idle;
otherwise an InvalidStateTransitionError and the state is unchanged. -/
def DaemonSession.cancelRecording (s : DaemonSession) :
    Result Unit InvalidStateTransitionError × DaemonSession :=
  if s.state ≠ DaemonState.recording then
    (Result.err ⟨s.state, "cancel recording"⟩, s)
  else
    (Result.ok (), ⟨DaemonState.idle⟩)

/-- completeProcessing: ok only from processing, then the state becomes
idle; otherwise an InvalidStateTransitionError and the state is
unchanged. -/
def DaemonSession.completeProcessing (s : DaemonSession) :
    Result Unit InvalidStateTransitionError × DaemonSession :=
  if s.state ≠ DaemonState.processing then
    (Result.err ⟨s.state, "complete processing"⟩, s)
  else
    (Result.ok (), ⟨DaemonState.idle⟩)

/-- The four transition operations of DaemonSession. -/
inductive SessionOp where
| start
| stop
| cancel
| complete
deriving Repr, DecidableEq

/-- Apply a transition operation to a session. -/
def applySessionOp : SessionOp → DaemonSession →
    Result Unit InvalidStateTransitionError × DaemonSession
| .start, s => s.startRecording
| .stop, s => s.stopRecording
| .cancel, s => s.cancelRecording
| .complete, s => s.completeProcessing

/-- The action name used in the error message of each operation. -/
def opActionName : SessionOp → String
| .start => "start recording"
| .stop => "stop recording"
| .cancel => "cancel recording"
| .complete => "complete processing"

/-- Transition table following the words of the specification (section 3):
the graph idle to recording (start), recording to processing (stop),
recording to idle (cancel), processing to idle (complete), and no other
edge.  `none` means the transition is illegal from that source state. -/
def specTransitionTable : DaemonState → SessionOp → Option DaemonState
| .idle, .start => some DaemonState.recording
| .recording, .stop => some DaemonState.processing
| .recording, .cancel => some DaemonState.idle
| .processing, .complete => some DaemonState.idle
| _, _ => none

/-- Some convenient concrete sessions. -/
def sessionIdle : DaemonSession := ⟨DaemonState.idle⟩

/-- Session in the recording state. -/
def sessionRecording : DaemonSession := ⟨DaemonState.recording⟩

/-- Session in the processing state. -/
def sessionProcessing : DaemonSession := ⟨DaemonState.processing⟩

/-- Lifecycle events, one per callback of DaemonEventCallbacks; invoking a
callback is modelled by appending the matching event. -/
inductive DaemonEvent where
| recordingStart
| recordingProgress (elapsedSeconds : Nat)
| maxDurationReached
| recordingStop
| recordingCancel
| transcriptionStart
| transcriptionComplete (text : String)
| clipboardCopy (success : Bool)
| keystrokeSend (success : Bool)
| errored (message : String)
| stateChange (state : DaemonState)
deriving Repr, DecidableEq

/-- Stage tag of a DaemonTranscriptionError. -/
inductive Stage where
| recording
| transcription
| clipboard
| keystroke
| state
deriving Repr, DecidableEq

/-- DaemonTranscriptionError: message plus the stage where it arose. -/
structure DaemonTranscriptionError where
  message : String
  stage : Stage
deriving Repr, DecidableEq

/-- The error union returned by the daemon use case methods:
InvalidStateTransitionError or DaemonTranscriptionError. -/
inductive UseCaseError where
| invalidTransition (e : InvalidStateTransitionError)
| transcription (e : DaemonTranscriptionError)
deriving Repr, DecidableEq

/-- True exactly on the InvalidStateTransitionError side of the union. -/
def UseCaseError.isInvalidTransition : UseCaseError → Bool
| .invalidTransition _ => true
| .transcription _ => false

/-- The message of a use case error (the Error message field). -/
def UseCaseError.message : UseCaseError → String
| .invalidTransition e => e.message
| .transcription e => e.message

/-- DaemonConfig together with the presence of the optional clipboard and
keystroke ports of the use case. -/
structure DaemonConfig where
  domainId : String
  maxDurationSeconds : Nat
  enableClipboard : Bool
  enableKeystroke : Bool
  hasClipboard : Bool
  hasKeystroke : Bool
deriving Repr, DecidableEq

/-- Outcomes of the port calls made by stopAndTranscribe, supplied as an
oracle: the recorder stopAndFinalize result (audio or error message), the
transcriber result (text or error message), and the success of the
clipboard copy and keystroke type calls. -/
structure PortOutcomes where
  finalize : Result String String
  transcribe : Result String String
  clipboardOk : Bool
  keystrokeOk : Bool
deriving Repr, DecidableEq

/-- Use case startRecording: transition the session to recording, report
the state change, start the recorder; if the recorder fails, roll back by
cancelRecording (its result ignored, as in the source), report the state
change, and return a recording-stage error. -/
def startRecordingUC (s : DaemonSession) (recorderStart : Result Unit String) :
    Result Unit UseCaseError × DaemonSession × List DaemonEvent :=
  match s.startRecording with
  | (Result.err e, s1) => (Result.err (UseCaseError.invalidTransition e), s1, [])
  | (Result.ok _, s1) =>
    let evs := [DaemonEvent.stateChange s1.state]
    match recorderStart with
    | Result.err msg =>
      let s2 := (s1.cancelRecording).2
      (Result.err (UseCaseError.transcription ⟨msg, Stage.recording⟩), s2,
        evs ++ [DaemonEvent.stateChange s2.state])
    | Result.ok _ =>
      (Result.ok (), s1, evs ++ [DaemonEvent.recordingStart])

/-- The part of stopAndTranscribe after its first suspension point (the
await of recorder.stopAndFinalize), acting on the current session:
finalize the audio, transcribe it, run the optional clipboard and
keystroke steps, and call completeProcessing on every path (its result
ignored, as in the source). -/
def stopRest (cfg : DaemonConfig) (s1 : DaemonSession) (o : PortOutcomes) :
    Result String UseCaseError × DaemonSession × List DaemonEvent :=
  match o.finalize with
  | Result.err msg =>
    let s2 := (s1.completeProcessing).2
    (Result.err (UseCaseError.transcription ⟨msg, Stage.recording⟩), s2,
      [DaemonEvent.stateChange s2.state])
  | Result.ok _audio =>
    match o.transcribe with
    | Result.err msg =>
      let s2 := (s1.completeProcessing).2
      (Result.err (UseCaseError.transcription ⟨msg, Stage.transcription⟩), s2,
        [DaemonEvent.transcriptionStart, DaemonEvent.stateChange s2.state])
    | Result.ok text =>
      let evs := [DaemonEvent.transcriptionStart, DaemonEvent.transcriptionComplete text]
      let evs := evs ++
        (if cfg.enableClipboard && cfg.hasClipboard then
          [DaemonEvent.clipboardCopy o.clipboardOk] else [])
      let evs := evs ++
        (if cfg.enableKeystroke && cfg.hasKeystroke then
          [DaemonEvent.keystrokeSend o.keystrokeOk] else [])
      let s2 := (s1.completeProcessing).2
      (Result.ok text, s2, evs ++ [DaemonEvent.stateChange s2.state])

/-- Use case stopAndTranscribe: transition the session to processing,
report the state change and the recording stop, then continue with
`stopRest`.  The synchronous part of the TypeScript method is everything
up to the first await; `stopRest` models the remainder. -/
def stopAndTranscribeUC (cfg : DaemonConfig) (s : DaemonSession) (o : PortOutcomes) :
    Result String UseCaseError × DaemonSession × List DaemonEvent :=
  match s.stopRecording with
  | (Result.err e, s1) => (Result.err (UseCaseError.invalidTransition e), s1, [])
  | (Result.ok _, s1) =>
    let r := stopRest cfg s1 o
    (r.1, r.2.1,
      [DaemonEvent.stateChange s1.state, DaemonEvent.recordingStop] ++ r.2.2)

/-- Use case cancel: reject with a state-stage DaemonTranscriptionError
unless the session is recording; then cancel the recorder (on failure
return a recording-stage error with the session untouched); then
cancelRecording and report the state change and the cancellation. -/
def cancelUC (s : DaemonSession) (recorderCancel : Result Unit String) :
    Result Unit UseCaseError × DaemonSession × List DaemonEvent :=
  if !s.isRecording then
    (Result.err (UseCaseError.transcription
      ⟨"Cannot cancel: not currently recording", Stage.state⟩), s, [])
  else
    match recorderCancel with
    | Result.err msg =>
      (Result.err (UseCaseError.transcription ⟨msg, Stage.recording⟩), s, [])
    | Result.ok _ =>
      match s.cancelRecording with
      | (Result.err e, s1) => (Result.err (UseCaseError.invalidTransition e), s1, [])
      | (Result.ok _, s1) =>
        (Result.ok (), s1,
          [DaemonEvent.stateChange s1.state, DaemonEvent.recordingCancel])

/-- handleMaxDurationReached: fire the onMaxDurationReached callback and
trigger stopAndTranscribe, discarding its returned Result (only a thrown
rejection would reach the catch handler, and the embedded method never
throws). -/
def handleMaxDurationReachedUC (cfg : DaemonConfig) (s : DaemonSession) (o : PortOutcomes) :
    DaemonSession × List DaemonEvent :=
  let r := stopAndTranscribeUC cfg s o
  (r.2.1, DaemonEvent.maxDurationReached :: r.2.2)

/-- Kind of a presenter message. -/
inductive MsgKind where
| info
| warn
| errorKind
| success
| output
deriving Repr, DecidableEq

/-- A message printed through the Presenter. -/
structure Msg where
  kind : MsgKind
  text : String
deriving Repr, DecidableEq

/-- Count of error messages in a presenter transcript. -/
def errorCount (ms : List Msg) : Nat :=
  (ms.filter (fun m => m.kind == MsgKind.errorKind)).length

/-- DaemonApp handleToggle: start recording when idle (printing the error
message of a failed start); when recording, fire stopAndTranscribe and
ignore its returned Result (the catch only sees thrown rejections); when
processing, print a busy warning.  Returns the final session, the events
fired, and the presenter messages. -/
def handleToggle (cfg : DaemonConfig) (s : DaemonSession)
    (recorderStart : Result Unit String) (o : PortOutcomes) :
    DaemonSession × List DaemonEvent × List Msg :=
  if s.isIdle then
    match startRecordingUC s recorderStart with
    | (Result.err e, s1, evs) => (s1, evs, [⟨MsgKind.errorKind, e.message⟩])
    | (Result.ok _, s1, evs) => (s1, evs, [])
  else if s.isRecording then
    let r := stopAndTranscribeUC cfg s o
    (r.2.1, r.2.2, [])
  else
    (s, [], [⟨MsgKind.warn, "Already transcribing, please wait..."⟩])

/-- DaemonApp handleCancel: when recording, fire the use case cancel and
ignore its returned Result; otherwise print the warning "Nothing to
cancel" without touching the use case. -/
def handleCancel (s : DaemonSession) (recorderCancel : Result Unit String) :
    DaemonSession × List DaemonEvent × List Msg :=
  if s.isRecording then
    let r := cancelUC s recorderCancel
    (r.2.1, r.2.2, [])
  else
    (s, [], [⟨MsgKind.warn, "Nothing to cancel"⟩])

/-- State of the DaemonApp control loop: the session state, the shouldExit
flag, and whether waitForExit has resolved (the control loop terminated). -/
structure AppState where
  session : DaemonState
  shouldExit : Bool
  exited : Bool
deriving Repr, DecidableEq

/-- Events driving the DaemonApp control loop: an exit signal
(handleExit), completion of an asynchronous cancel (recording to idle),
completion of an in-flight stopAndTranscribe (processing to idle), and a
tick of the waitForExit check interval. -/
inductive AppEvent where
| sigExit
| cancelDone
| processingDone
| intervalTick
deriving Repr, DecidableEq

/-- One step of the DaemonApp control loop taken in isolation.  sigExit is
the body of the DaemonSignalHandler listener, DaemonApp.handleExit,
invoked directly: when recording, set shouldExit and schedule an
asynchronous cancel; when processing, set shouldExit and wait; when idle,
set shouldExit and resolve the exit promise immediately.  The check
interval resolves the exit promise when shouldExit is set and the session
is idle.  Delivery of a real SIGINT/SIGTERM to the composed daemon process
also runs the earlier-registered legacy SignalHandler listener and is
modelled by composedSigExit below. -/
def appStep : AppState → AppEvent → AppState
| st, .sigExit =>
  match st.session with
  | .recording => { st with shouldExit := true }
  | .processing => { st with shouldExit := true }
  | .idle => { st with shouldExit := true, exited := true }
| st, .cancelDone =>
  if st.session == DaemonState.recording then { st with session := DaemonState.idle } else st
| st, .processingDone =>
  if st.session == DaemonState.processing then { st with session := DaemonState.idle } else st
| st, .intervalTick =>
  if st.shouldExit && st.session == DaemonState.idle then { st with exited := true } else st

/-- State of the composed daemon process for SIGINT/SIGTERM handling: the
DaemonApp control-loop state, the isShuttingDown flag of the legacy
SignalHandler constructed by the App constructor, the number of cleanup
callbacks registered on that handler through onCleanup (zero in daemon
mode: runDaemonMode never calls onCleanup, only runOneshotMode does), and
the exit code once process.exit has run. -/
structure ComposedState where
  app : AppState
  legacyShuttingDown : Bool
  cleanupCallbacks : Nat
  exitCode : Option Nat
deriving Repr, DecidableEq

/-- The legacy SignalHandler SIGINT/SIGTERM listener, installed by the App
constructor and therefore registered before the DaemonSignalHandler
listener: on a repeated signal it calls process.exit(130) at once;
otherwise it sets isShuttingDown and runs the cleanup callbacks; with none
registered its async body never suspends and reaches process.exit(130)
synchronously; with callbacks registered it suspends at the first awaited
callback and the exit happens only after the cleanup completes (that later
exit is outside this model). -/
def legacySigExit (st : ComposedState) : ComposedState :=
  if st.exitCode.isSome then st
  else if st.legacyShuttingDown then { st with exitCode := some 130 }
  else if st.cleanupCallbacks = 0 then
    { st with legacyShuttingDown := true, exitCode := some 130 }
  else
    { st with legacyShuttingDown := true }

/-- Delivery of SIGINT/SIGTERM to the composed daemon process: the
listeners run in registration order, the legacy SignalHandler listener
first; if it reaches process.exit the process is dead and the
DaemonSignalHandler listener (DaemonApp.handleExit) never runs; otherwise
handleExit runs as the second listener. -/
def composedSigExit (st : ComposedState) : ComposedState :=
  let st1 := legacySigExit st
  if st1.exitCode.isSome then st1
  else { st1 with app := appStep st1.app AppEvent.sigExit }

/-- State of the signal-dispatch loop, modelling the JavaScript event
loop: the session state, the queue of suspended stopAndTranscribe
continuations (each carrying the port outcomes it will observe), and the
presenter transcript.  A signal handler runs synchronously; an async call
it fires without awaiting is appended to pendingStops at its first
suspension point. -/
structure LoopState where
  session : DaemonState
  pendingStops : List PortOutcomes
  msgs : List Msg
deriving Repr, DecidableEq

/-- The initial dispatch-loop state: idle session, nothing pending. -/
def initLoop : LoopState := ⟨DaemonState.idle, [], []⟩

/-- Dispatch of one Toggle signal, as the handler actually executes on the
event loop: the idle branch runs startRecording synchronously to
completion; the recording branch runs stopAndTranscribe only up to its
first await (the session is already processing there) and leaves the
continuation pending when the handler returns; the processing branch
prints the busy warning. -/
def dispatchToggle (recorderStart : Result Unit String) (o : PortOutcomes)
    (st : LoopState) : LoopState :=
  match st.session with
  | DaemonState.idle =>
    match recorderStart with
    | Result.ok _ => { st with session := DaemonState.recording }
    | Result.err e =>
      { st with msgs := st.msgs ++ [⟨MsgKind.errorKind, e⟩] }
  | DaemonState.recording =>
    { st with session := DaemonState.processing, pendingStops := st.pendingStops ++ [o] }
  | DaemonState.processing =>
    { st with msgs := st.msgs ++ [⟨MsgKind.warn, "Already transcribing, please wait..."⟩] }

/-- Resumption of the oldest pending stopAndTranscribe continuation: run
`stopRest` against the current session, which ends with
completeProcessing. -/
def runPendingStop (cfg : DaemonConfig) (st : LoopState) : LoopState :=
  match st.pendingStops with
  | [] => st
  | o :: rest =>
    let r := stopRest cfg ⟨st.session⟩ o
    { st with session := r.2.1.state, pendingStops := rest }

/-- Whitespace test used by trim and parseInt. -/
def isWhitespaceChar (c : Char) : Bool :=
  c == ' ' || c == '\t' || c == '\n' || c == '\r'

/-- JavaScript String.trim restricted to the usual whitespace characters:
drop whitespace from both ends. -/
def jsTrim (s : String) : String :=
  String.mk (((s.toList.dropWhile isWhitespaceChar).reverse.dropWhile
    isWhitespaceChar).reverse)

/-- Numeric value of a digit list read left to right. -/
def digitsToNat (ds : List Char) : Nat :=
  ds.foldl (fun acc c => acc * 10 + (c.toNat - 48)) 0

/-- Number.parseInt with radix 10: skip leading whitespace, read an
optional sign, then the longest digit run; `none` models NaN (no digit
found). -/
def jsParseInt10 (s : String) : Option Int :=
  let cs := s.toList.dropWhile isWhitespaceChar
  let signAndRest : Int × List Char :=
    match cs with
    | '-' :: rest => (-1, rest)
    | '+' :: rest => (1, rest)
    | _ => (1, cs)
  let ds := signAndRest.2.takeWhile Char.isDigit
  if ds.isEmpty then none
  else some (signAndRest.1 * (digitsToNat ds : Int))

/-- PidFileError: message and, when known, the pid of the conflicting
holder. -/
structure PidFileError where
  message : String
  existingPid : Option Int
deriving Repr, DecidableEq

/-- The conflict message built by PidFile.acquire. -/
def pidConflictMessage (pid : Int) : String :=
  "Another daemon instance is running (PID: " ++ toString pid ++ ")"

/-- State of the lock file and of the file-system conditions met by
PidFile: whether the file exists, its content when it does, and whether
read and write calls throw. -/
structure FsState where
  fileExists : Bool
  content : String
  readFails : Bool
  writeFails : Bool
deriving Repr, DecidableEq

/-- PidFile.acquire: when the file exists, read it (a read error falls
through to the overwrite), parse the pid (NaN falls through to the
overwrite), and fail with the conflict error without touching the file
when the parsed pid belongs to a running process (liveness probed through
the `running` oracle, signal 0); otherwise write the current pid. -/
def PidFile.acquire (fs : FsState) (running : Int → Bool) (curPid : Nat) :
    Result Unit PidFileError × FsState :=
  let write : Result Unit PidFileError × FsState :=
    if fs.writeFails then
      (Result.err ⟨"Failed to write PID file", none⟩, fs)
    else
      (Result.ok (), { fs with fileExists := true, content := toString curPid })
  if fs.fileExists then
    if fs.readFails then write
    else
      match jsParseInt10 (jsTrim fs.content) with
      | none => write
      | some pid =>
        if running pid then
          (Result.err ⟨pidConflictMessage pid, some pid⟩, fs)
        else write
  else write

/-- True on the events that witness an invocation of the Transcriber. -/
def isTranscriptionEvent : DaemonEvent → Bool
| .transcriptionStart => true
| .transcriptionComplete _ => true
| _ => false

/-- A concrete configuration used for witnesses. -/
def cfgDemo : DaemonConfig := ⟨"general", 60, true, true, true, true⟩

/-- Concrete successful port outcomes used for witnesses. -/
def oDemo : PortOutcomes := ⟨Result.ok ("audio"), Result.ok ("text"), true, true⟩

/-- Claim C1: every DaemonSession operation agrees exactly with the
four-edge transition table: from the matching source state it moves along
the unique edge of the graph, and from every other source state it returns
an InvalidStateTransitionError naming the current state and the attempted
action and leaves the state unchanged; the resulting state is always one
of idle, recording, processing. -/
theorem session_transitions_follow_table :
    ∀ (s : DaemonSession) (op : SessionOp),
      applySessionOp op s =
        (match specTransitionTable s.state op with
         | some t => (Result.ok (), DaemonSession.mk t)
         | none => (Result.err ⟨s.state, opActionName op⟩, s))
      ∧ ((applySessionOp op s).2.state = DaemonState.idle ∨
         (applySessionOp op s).2.state = DaemonState.recording ∨
         (applySessionOp op s).2.state = DaemonState.processing) := by
  intro s op
  obtain ⟨st⟩ := s
  cases st <;> cases op <;> simp [applySessionOp, specTransitionTable, opActionName,
    DaemonSession.startRecording, DaemonSession.stopRecording,
    DaemonSession.cancelRecording, DaemonSession.completeProcessing]

/-- Claim C2 counterexample: after the second Toggle dispatch has returned
(so the loop is free to take the next command), the asynchronous
stop-and-transcribe work it fired is still pending, and a third Toggle is
then dispatched and executes (printing the busy warning) while that work
is still pending: dispatch executions are not serialized to completion of
their fire-and-forget asynchronous work, contrary to the claim. -/
theorem dispatch_interleaves_pending_work :
    (dispatchToggle (Result.ok ()) oDemo
        (dispatchToggle (Result.ok ()) oDemo initLoop)).pendingStops.length = 1 ∧
    (dispatchToggle (Result.ok ()) oDemo
        (dispatchToggle (Result.ok ()) oDemo
          (dispatchToggle (Result.ok ()) oDemo initLoop))).pendingStops.length = 1 ∧
    (dispatchToggle (Result.ok ()) oDemo
        (dispatchToggle (Result.ok ()) oDemo
          (dispatchToggle (Result.ok ()) oDemo initLoop))).msgs.length = 1 := by
  decide

/-- Claim C2 (amended): each signal handler is an atomic synchronous step,
but the stop-and-transcribe work fired by a Toggle in Recording is still
pending when the handler returns; a command dispatched while that work is
pending meets the Processing session, where Toggle only warns and changes
nothing, and the pending work itself later completes the session to
Idle. -/
theorem dispatch_during_processing_is_safe :
    ∀ (cfg : DaemonConfig) (r : Result Unit String) (o o2 : PortOutcomes)
      (st : LoopState),
      st.session = DaemonState.processing →
      (dispatchToggle r o2 st).session = st.session ∧
      (dispatchToggle r o2 st).pendingStops = st.pendingStops ∧
      (dispatchToggle r o2 st).msgs =
        st.msgs ++ [⟨MsgKind.warn, "Already transcribing, please wait..."⟩] ∧
      (st.pendingStops = [o] →
        (runPendingStop cfg st).session = DaemonState.idle ∧
        (runPendingStop cfg st).pendingStops = []) := by
  intro cfg r o o2 st h
  obtain ⟨s, pend, msgs⟩ := st
  simp only at h
  subst h
  refine ⟨rfl, rfl, rfl, ?_⟩
  intro hp
  simp only at hp
  subst hp
  rcases o with ⟨fin, tr, c, k⟩
  cases fin <;> cases tr <;>
    simp [runPendingStop, stopRest, DaemonSession.completeProcessing]

/-- Witness for the amended C2 theorem at a concrete loop state with one
pending continuation. -/
theorem dispatch_during_processing_is_safe_witness :
    (dispatchToggle (Result.ok ()) oDemo
        ⟨DaemonState.processing, [oDemo], []⟩).session = DaemonState.processing ∧
    (runPendingStop cfgDemo ⟨DaemonState.processing, [oDemo], []⟩).session =
      DaemonState.idle := by
  have h := dispatch_during_processing_is_safe cfgDemo (Result.ok ()) oDemo oDemo
    ⟨DaemonState.processing, [oDemo], []⟩ rfl
  exact ⟨h.1, (h.2.2.2 rfl).1⟩

/-- Claim C3 counterexample: the session of the first recording and the
session of a second recording reached by start, cancel, start are the
identical DaemonSession value (the recording session), so the session
state carries nothing that distinguishes successive recordings: a
monotonically increasing generation counter incremented on every
recording start, as the claim states, would make the two values differ. -/
theorem no_generation_counter_in_session :
    (DaemonSession.startRecording sessionIdle).2 = sessionRecording ∧
    (DaemonSession.cancelRecording sessionRecording).2 = sessionIdle ∧
    (DaemonSession.startRecording sessionIdle).2 =
      (DaemonSession.startRecording
        ((DaemonSession.cancelRecording
          ((DaemonSession.startRecording sessionIdle).2)).2)).2 := by
  decide

/-- Claim C3 (amended): there is no generation counter; a max-duration
deadline callback that fires when the session is no longer recording is a
no-op because its stop-recording transition is rejected: the session is
unchanged and only the max-duration notification fires, with no
transcription. -/
theorem stale_deadline_is_noop :
    ∀ (cfg : DaemonConfig) (s : DaemonSession) (o : PortOutcomes),
      s.state ≠ DaemonState.recording →
      handleMaxDurationReachedUC cfg s o = (s, [DaemonEvent.maxDurationReached]) := by
  intro cfg s o h
  obtain ⟨st⟩ := s
  simp only at h
  cases st <;>
    simp_all [handleMaxDurationReachedUC, stopAndTranscribeUC,
      DaemonSession.stopRecording]

/-- Witness for the amended C3 theorem: a deadline firing in the
processing state (the recording already stopped manually) is a no-op. -/
theorem stale_deadline_is_noop_witness :
    handleMaxDurationReachedUC cfgDemo sessionProcessing oDemo =
      (sessionProcessing, [DaemonEvent.maxDurationReached]) :=
  stale_deadline_is_noop cfgDemo sessionProcessing oDemo (by decide)

/-- Claim C4: a Toggle in the Recording state always returns the session
to Idle: whether stopAndFinalize fails, transcription fails, or
transcription succeeds, completeProcessing runs on every path, both in the
use case and through the handleToggle dispatch. -/
theorem toggle_from_recording_reaches_idle :
    ∀ (cfg : DaemonConfig) (s : DaemonSession) (r : Result Unit String)
      (o : PortOutcomes),
      s.state = DaemonState.recording →
      (stopAndTranscribeUC cfg s o).2.1.state = DaemonState.idle ∧
      (handleToggle cfg s r o).1.state = DaemonState.idle := by
  intro cfg s r o h
  obtain ⟨st⟩ := s
  simp only at h
  subst h
  rcases o with ⟨fin, tr, c, k⟩
  cases fin <;> cases tr <;>
    simp [stopAndTranscribeUC, stopRest, handleToggle,
      DaemonSession.isIdle, DaemonSession.isRecording,
      DaemonSession.stopRecording, DaemonSession.completeProcessing]

/-- Witness for C4 at the recording session with successful outcomes. -/
theorem toggle_from_recording_reaches_idle_witness :
    (stopAndTranscribeUC cfgDemo sessionRecording oDemo).2.1.state =
      DaemonState.idle :=
  (toggle_from_recording_reaches_idle cfgDemo sessionRecording (Result.ok ())
    oDemo rfl).1

/-- Claim C5 counterexample: a Toggle in Idle with a failing recorder
start does report the intermediate Recording state to the observer: the
event trace is exactly a state change to recording followed by the
roll-back state change to idle, so a state flicker beyond Idle is
observable, contrary to the claim. -/
theorem failed_start_state_flicker :
    (startRecordingUC sessionIdle (Result.err ("mic open failed"))).2.2 =
      [DaemonEvent.stateChange DaemonState.recording,
        DaemonEvent.stateChange DaemonState.idle] ∧
    DaemonEvent.stateChange DaemonState.recording ∈
      (startRecordingUC sessionIdle (Result.err ("mic open failed"))).2.2 := by
  decide

/-- Claim C5 (amended): a Toggle in Idle with a successful recorder start
ends in Recording with the recordingStart event; with a failing start the
session is rolled back to Idle, the dispatch prints exactly one error and
no recordingStart event fires, but the state-change callback does observe
the transient Recording state before the roll-back. -/
theorem toggle_from_idle_characterised :
    ∀ (cfg : DaemonConfig) (msg : String) (o : PortOutcomes),
      startRecordingUC sessionIdle (Result.ok ()) =
        (Result.ok (), sessionRecording,
          [DaemonEvent.stateChange DaemonState.recording,
            DaemonEvent.recordingStart]) ∧
      startRecordingUC sessionIdle (Result.err msg) =
        (Result.err (UseCaseError.transcription ⟨msg, Stage.recording⟩),
          sessionIdle,
          [DaemonEvent.stateChange DaemonState.recording,
            DaemonEvent.stateChange DaemonState.idle]) ∧
      (handleToggle cfg sessionIdle (Result.err msg) o).1 = sessionIdle ∧
      errorCount (handleToggle cfg sessionIdle (Result.err msg) o).2.2 = 1 := by
  intro cfg msg o
  refine ⟨by decide, ?_, ?_, ?_⟩ <;>
    simp [startRecordingUC, handleToggle, errorCount, sessionIdle,
      sessionRecording, DaemonSession.startRecording,
      DaemonSession.cancelRecording, DaemonSession.isIdle]

/-- Claim C6 counterexample: a Cancel in Recording whose recorder cancel
fails returns an error and leaves the session in Recording, not Idle,
contrary to the claim that Cancel from Recording always leaves the session
in Idle. -/
theorem cancel_recorder_failure_stays_recording :
    cancelUC sessionRecording (Result.err ("kill failed")) =
      (Result.err (UseCaseError.transcription ⟨"kill failed", Stage.recording⟩),
        sessionRecording, []) ∧
    ((cancelUC sessionRecording (Result.err ("kill failed"))).2.1.state ==
      DaemonState.idle) = false := by
  decide

/-- Claim C6 (amended): a Cancel in Recording with a successful recorder
cancel leaves the session in Idle with the cancellation events; with a
failing recorder cancel it returns a recording-stage error and leaves the
session in Recording; in neither case is the Transcriber invoked. -/
theorem cancel_from_recording_characterised :
    ∀ (msg : String) (rc : Result Unit String),
      cancelUC sessionRecording (Result.ok ()) =
        (Result.ok (), sessionIdle,
          [DaemonEvent.stateChange DaemonState.idle,
            DaemonEvent.recordingCancel]) ∧
      cancelUC sessionRecording (Result.err msg) =
        (Result.err (UseCaseError.transcription ⟨msg, Stage.recording⟩),
          sessionRecording, []) ∧
      ((cancelUC sessionRecording rc).2.2.any isTranscriptionEvent) = false := by
  intro msg rc
  refine ⟨by decide, by simp [cancelUC, sessionRecording,
    DaemonSession.isRecording], ?_⟩
  cases rc <;>
    simp [cancelUC, sessionRecording, DaemonSession.isRecording,
      DaemonSession.cancelRecording, isTranscriptionEvent]

/-- Claim C7 counterexample: a Cancel dispatched in Idle produces exactly
the warning with no error at all (the use case is never invoked), and the
use case cancel itself rejects with a state-stage DaemonTranscriptionError
rather than an InvalidStateTransitionError, contrary to the claim that the
rejection is an InvalidTransition error. -/
theorem cancel_rejection_not_invalid_transition :
    handleCancel sessionIdle (Result.ok ()) =
      (sessionIdle, [], [⟨MsgKind.warn, "Nothing to cancel"⟩]) ∧
    (cancelUC sessionIdle (Result.ok ())).1 =
      Result.err (UseCaseError.transcription
        ⟨"Cannot cancel: not currently recording", Stage.state⟩) ∧
    ((match (cancelUC sessionIdle (Result.ok ())).1 with
      | Result.ok _ => false
      | Result.err e => e.isInvalidTransition) = false) := by
  decide

/-- Claim C7 (amended): a Cancel dispatched in Idle or Processing leaves
the session unchanged and emits exactly one warning (Nothing to cancel),
the use case being bypassed; the use case cancel, called directly, rejects
with a state-stage DaemonTranscriptionError and changes nothing. -/
theorem cancel_outside_recording_characterised :
    ∀ (s : DaemonSession) (rc : Result Unit String),
      (s.state = DaemonState.idle ∨ s.state = DaemonState.processing) →
      handleCancel s rc = (s, [], [⟨MsgKind.warn, "Nothing to cancel"⟩]) ∧
      cancelUC s rc =
        (Result.err (UseCaseError.transcription
          ⟨"Cannot cancel: not currently recording", Stage.state⟩), s, []) := by
  intro s rc h
  obtain ⟨st⟩ := s
  rcases h with h | h <;> simp only at h <;> subst h <;>
    simp [handleCancel, cancelUC, DaemonSession.isRecording]

/-- Witness for the amended C7 theorem at the idle session. -/
theorem cancel_outside_recording_characterised_witness :
    handleCancel sessionIdle (Result.ok ()) =
      (sessionIdle, [], [⟨MsgKind.warn, "Nothing to cancel"⟩]) :=
  (cancel_outside_recording_characterised sessionIdle (Result.ok ())
    (Or.inl rfl)).1

/-- Supporting fact for C8: in the DaemonApp control loop taken in
isolation, no step resolves the exit promise unless the session is idle at
that step (so an exit request in Processing only sets the flag and the
loop exits after the in-flight transcription has returned the session to
Idle), handleExit in Processing does not terminate the loop, and
handleExit in Idle terminates it immediately.  This is the wait-for-idle
behaviour DaemonApp itself implements; the composed-process theorem below
shows a real signal never reaches it. -/
theorem shutdown_waits_for_idle :
    ∀ (st : AppState) (ev : AppEvent),
      (st.exited = false → (appStep st ev).exited = true →
        (appStep st ev).session = DaemonState.idle) ∧
      (st.session = DaemonState.processing → st.exited = false →
        (appStep st AppEvent.sigExit).exited = false) ∧
      (st.session = DaemonState.idle →
        (appStep st AppEvent.sigExit).exited = true) := by
  intro st ev
  obtain ⟨s, se, ex⟩ := st
  cases s <;> cases ev <;> cases se <;> cases ex <;> simp [appStep]

/-- Witness for the isolated control-loop fact: handleExit while
processing does not terminate the loop; handleExit while idle terminates
it at once. -/
theorem shutdown_waits_for_idle_witness :
    (appStep ⟨DaemonState.processing, false, false⟩ AppEvent.sigExit).exited =
      false ∧
    (appStep ⟨DaemonState.idle, false, false⟩ AppEvent.sigExit).exited = true :=
  ⟨(shutdown_waits_for_idle ⟨DaemonState.processing, false, false⟩
      AppEvent.sigExit).2.1 rfl rfl,
    (shutdown_waits_for_idle ⟨DaemonState.idle, false, false⟩
      AppEvent.sigExit).2.2 rfl⟩

/-- Claim C8 (code bug): a SIGINT delivered to the composed daemon while
the session is Processing terminates the process immediately with exit
code 130: the legacy SignalHandler listener installed by the App
constructor runs first and, since daemon mode registers no cleanup
callbacks, reaches process.exit(130) synchronously, so DaemonApp
handleExit never runs at all (the app state, including the shouldExit
flag, is untouched and the exit promise is never resolved) and the
in-flight transcription is killed rather than allowed to finish, contrary
to the claim, which matches the wait-for-idle behaviour DaemonApp itself
implements but which is unreachable for real signals. -/
theorem composed_shutdown_kills_during_processing :
    (composedSigExit
      ⟨⟨DaemonState.processing, false, false⟩, false, 0, none⟩).exitCode =
      some 130 ∧
    (composedSigExit
      ⟨⟨DaemonState.processing, false, false⟩, false, 0, none⟩).app =
      ⟨DaemonState.processing, false, false⟩ := by
  decide

/-- Claim C9: PidFile.acquire against a readable lock file whose pid is
not a running process succeeds and overwrites the file with the current
pid; against a live pid it fails with the conflict error carrying that pid
and does not touch the file. -/
theorem acquire_stale_vs_live :
    ∀ (fs : FsState) (running : Int → Bool) (curPid : Nat) (pid : Int),
      fs.fileExists = true → fs.readFails = false → fs.writeFails = false →
      jsParseInt10 (jsTrim fs.content) = some pid →
      (running pid = false →
        PidFile.acquire fs running curPid =
          (Result.ok (), { fs with content := toString curPid })) ∧
      (running pid = true →
        PidFile.acquire fs running curPid =
          (Result.err ⟨pidConflictMessage pid, some pid⟩, fs)) := by
  intro fs running curPid pid he hr hw hp
  obtain ⟨fe, c, rf, wf⟩ := fs
  simp only at he hr hw hp
  subst he; subst hr; subst hw
  constructor <;> intro hrun <;>
    simp [PidFile.acquire, hp, hrun]

/-- Witness for C9: a stale lock file containing pid 123 with no process
running is overwritten with the current pid 42; with process 123 alive the
acquire fails carrying pid 123 and the file is unchanged. -/
theorem acquire_stale_vs_live_witness :
    PidFile.acquire ⟨true, "123", false, false⟩ (fun _ => false) 42 =
      (Result.ok (), ⟨true, "42", false, false⟩) ∧
    PidFile.acquire ⟨true, "123", false, false⟩ (fun p => p == 123) 42 =
      (Result.err ⟨pidConflictMessage 123, some 123⟩,
        ⟨true, "123", false, false⟩) :=
  ⟨(acquire_stale_vs_live ⟨true, "123", false, false⟩ (fun _ => false) 42 123
      rfl rfl rfl (by decide)).1 rfl,
    (acquire_stale_vs_live ⟨true, "123", false, false⟩ (fun p => p == 123) 42
      123 rfl rfl rfl (by decide)).2 (by decide)⟩

/-- Claim C10: when the lock file exists but its content does not parse as
a decimal pid (parseInt yields NaN), or the file cannot be read at all,
PidFile.acquire does not fail with a lock conflict: it overwrites the file
with the current pid and succeeds. -/
theorem acquire_corrupt_lock_succeeds :
    ∀ (fs : FsState) (running : Int → Bool) (curPid : Nat),
      fs.fileExists = true → fs.writeFails = false →
      (fs.readFails = true ∨ jsParseInt10 (jsTrim fs.content) = none) →
      PidFile.acquire fs running curPid =
        (Result.ok (), { fs with content := toString curPid }) := by
  intro fs running curPid he hw h
  obtain ⟨fe, c, rf, wf⟩ := fs
  simp only at he hw h
  subst he; subst hw
  rcases h with h | h
  · subst h
    simp [PidFile.acquire]
  · simp [PidFile.acquire, h]

/-- Witness for C10: a lock file containing garbage is overwritten and the
acquire succeeds. -/
theorem acquire_corrupt_lock_succeeds_witness :
    PidFile.acquire ⟨true, "garbage", false, false⟩ (fun _ => true) 7 =
      (Result.ok (), ⟨true, "7", false, false⟩) :=
  acquire_corrupt_lock_succeeds ⟨true, "garbage", false, false⟩
    (fun _ => true) 7 rfl rfl (Or.inr (by decide))

end SmartScribe
